import Mathlib

/-!
Shallow embedding of the stack-reconciliation core of the cf-utils
repository: the CloudFormation module (upsertStack, createStack,
updateStack, deployStack, deleteStack, pollStack, pollChangeSet,
createChangeSet, deleteChangeSet, executeChangeSet, applyChangeSet)
and the S3 module (emptyBucket, deleteVersionedObjects).

Provider interactions are modelled by scripted worlds: each remote call
reads its scripted result from the world and appends an event to a
trace.  Promise resolution/rejection is modelled by the `Outcome` type;
a promise that never settles (an unhandled rejection inside a `new
Promise` executor, or an exhausted poll script) is `Outcome.hung`, and a
synchronous JavaScript exception escaping the function is
`Outcome.threw`.
-/

/-- JsErr models a JavaScript `Error` value by its message. -/
structure JsErr where
  message : String
deriving Repr, DecidableEq

/-- jsErrToString models `err.toString()` for an Error, which prints as
`"Error: " + message`. -/
def jsErrToString (e : JsErr) : String :=
  "Error: " ++ e.message

/-- jsIndexOfAux scans the haystack left to right and returns the first
index at which the needle occurs, or `-1`. -/
def jsIndexOfAux (needle : List Char) : List Char → Nat → Int
  | [], i => if needle = [] then (i : Int) else -1
  | c :: t, i =>
      if needle.isPrefixOf (c :: t) then (i : Int) else jsIndexOfAux needle t (i + 1)

/-- jsIndexOf models JavaScript `hay.indexOf(needle)`: the first index of
the needle in the haystack, or `-1` when absent. -/
def jsIndexOf (hay needle : String) : Int :=
  jsIndexOfAux needle.data hay.data 0

/-- jsContains models the idiom `hay.indexOf(needle) >= 0`. -/
def jsContains (hay needle : String) : Bool :=
  decide (0 ≤ jsIndexOf hay needle)

/-- jsStr models JavaScript template-literal stringification of a value
that may be `undefined`: an absent value interpolates as the string
`"undefined"`. -/
def jsStr : Option String → String
  | none => "undefined"
  | some s => s

/-- jsTruthyTok models JavaScript truthiness of a continuation-token
value that is either `undefined` or a string: `undefined` and the empty
string are falsy. -/
def jsTruthyTok : Option String → Bool
  | none => false
  | some s => s ≠ ""

/-- Output models one entry of a stack's `Outputs` array. -/
structure Output where
  OutputKey : String
  OutputValue : String
deriving Repr, DecidableEq

/-- Stack models the per-stack record returned by `describeStacks`. -/
structure Stack where
  StackStatus : String
  Outputs : List Output
deriving Repr, DecidableEq

/-- defaultStack is the placeholder used to model `data.Stacks[0]` when
the array is empty (the JavaScript code never handles that case). -/
def defaultStack : Stack :=
  { StackStatus := "", Outputs := [] }

/-- DescribeStacksData models the `data` payload of `describeStacks`. -/
structure DescribeStacksData where
  Stacks : List Stack
deriving Repr, DecidableEq

/-- ChangeSetData models the payload returned by `describeChangeSet`. -/
structure ChangeSetData where
  Status : String
  StatusReason : String
  StackName : String
  ChangeSetName : String
deriving Repr, DecidableEq

/-- Parameter models one stack input of the `Parameters` list. -/
structure Parameter where
  ParameterKey : String
  ParameterValue : String
deriving Repr, DecidableEq

/-- TemplateRef models the template field of the request params: either
`TemplateURL` or an inline `TemplateBody`. -/
inductive TemplateRef where
  | url (u : String)
  | body (b : String)
deriving Repr, DecidableEq

/-- Ev is one observable step of a run: a provider API call, a timer
delay, or one of the warn-level log entries the spec's claims refer to. -/
inductive Ev where
  | describeStacksCall (stackName : String)
  | createStackCall (stackName : String) (template : TemplateRef)
  | updateStackCall (stackName : String) (template : TemplateRef)
  | deleteStackCall (stackName : String)
  | createChangeSetCall (stackName changeSetName : String)
      (changeSetType : Option String) (template : TemplateRef)
  | describeChangeSetCall (stackName changeSetName : String)
  | executeChangeSetCall (stackName changeSetName : String)
  | deleteChangeSetCall (stackName changeSetName : String)
  | putS3ObjectCall (bucket key : String)
  | getBucketVersioningCall (bucket : String)
  | listObjectsCall (bucket : String) (continuationToken : Option String)
  | listObjectVersionsCall (bucket key : String) (versionIdMarker : Option String)
  | deleteObjectsCall (bucket : String) (objects : List (String × Option String))
  | spawnDeployCall (stackName template parameterOverrides : String)
  | delay (ms : Nat)
  | warnStackDetails (data : DescribeStacksData)
  | warnChangeSet (cs : ChangeSetData)
deriving Repr, DecidableEq

/-- ResolveVal is the value a promise resolves with. -/
inductive ResolveVal where
  | undef
  | stacksData (d : DescribeStacksData)
  | changeSet (cs : ChangeSetData)
  | stack (s : Stack)
deriving Repr, DecidableEq

/-- RejectVal is the value a promise rejects with: an Error (kept by its
message) or a plain string. -/
inductive RejectVal where
  | error (message : String)
  | str (s : String)
deriving Repr, DecidableEq

/-- Outcome is the final fate of a modelled asynchronous run. -/
inductive Outcome where
  | resolved (v : ResolveVal)
  | rejected (r : RejectVal)
  | threw (e : JsErr)
  | hung
deriving Repr, DecidableEq

/-- pollStack translates `pollStack` of the CloudFormation module.  The
script lists the successive results of `describeStacks`; each poll round
consumes one entry.  An exhausted script is the run that never reaches a
terminal observation (`Outcome.hung`). -/
def pollStack (stackName : String) :
    List (Except JsErr DescribeStacksData) → List Ev × Outcome
  | [] => ([], .hung)
  | r :: rest =>
    match r with
    | .error e =>
      if jsContains e.message "does not exist" then
        ([.describeStacksCall stackName], .resolved .undef)
      else
        ([.describeStacksCall stackName], .rejected (.error e.message))
    | .ok data =>
      let st := (data.Stacks.headD defaultStack).StackStatus
      if st = "CREATE_COMPLETE" ∨ st = "UPDATE_COMPLETE" then
        ([.describeStacksCall stackName], .resolved (.stacksData data))
      else if st = "ROLLBACK_COMPLETE" ∨ st = "CREATE_FAILED" ∨
          st = "UPDATE_FAILED" ∨ st = "DELETE_FAILED" ∨
          st = "UPDATE_ROLLBACK_COMPLETE" then
        ([.describeStacksCall stackName, .warnStackDetails data],
          .rejected (.error "Stack operation failed"))
      else
        let next := pollStack stackName rest
        (.describeStacksCall stackName :: .delay 5000 :: next.1, next.2)

/-- pollChangeSet translates `pollChangeSet` of the CloudFormation
module; the script lists the successive results of `describeChangeSet`. -/
def pollChangeSet (stackName changeSetName : String) :
    List (Except JsErr ChangeSetData) → List Ev × Outcome
  | [] => ([], .hung)
  | r :: rest =>
    match r with
    | .error e =>
      if jsContains e.message "does not exist" then
        ([.describeChangeSetCall stackName changeSetName], .resolved .undef)
      else
        ([.describeChangeSetCall stackName changeSetName], .rejected (.error e.message))
    | .ok cs =>
      if cs.Status = "CREATE_COMPLETE" ∨ cs.Status = "UPDATE_COMPLETE" ∨
          cs.Status = "DELETE_COMPLETE" then
        ([.describeChangeSetCall stackName changeSetName], .resolved (.changeSet cs))
      else if cs.Status = "FAILED" then
        if jsContains cs.StatusReason "No updates are to be performed" ∨
            jsContains cs.StatusReason "didn\x27t contain changes" then
          ([.describeChangeSetCall stackName changeSetName], .resolved .undef)
        else
          ([.describeChangeSetCall stackName changeSetName, .warnChangeSet cs],
            .rejected (.error "Changeset creation failed"))
      else
        let next := pollChangeSet stackName changeSetName rest
        (.describeChangeSetCall stackName changeSetName :: .delay 5000 :: next.1, next.2)

/-- ObjectsPage models the `listObjectsV2` payload: the page's object
keys and the optional `NextContinuationToken`. -/
structure ObjectsPage where
  Contents : List String
  NextContinuationToken : Option String
deriving Repr, DecidableEq

/-- VersionsPage models the `listObjectVersions` payload: `(Key,
VersionId)` records and the optional `NextVersionIdMarker`. -/
structure VersionsPage where
  Versions : List (String × String)
  NextVersionIdMarker : Option String
deriving Repr, DecidableEq

/-- S3World scripts the S3 provider for one bucket: the
`getBucketVersioning` result (error, or the versioning `Status` field
stringified, `""` standing for an absent field) and the pages served by
the two paginated listings.  Batched deletes are acknowledged by the
scripted provider. -/
structure S3World where
  versioningResult : Except JsErr String
  listPage : Option String → ObjectsPage
  listVersionsPage : String → Option String → VersionsPage

/-- versionListAndDelete translates the inner `listAndDelete` closure of
`deleteVersionedObjects`: list one page of versions for the key, and if
the page is non-empty batch-delete it and hand back the page's
`NextVersionIdMarker`. -/
def versionListAndDelete (w : S3World) (bucket key : String)
    (tok : Option String) : List Ev × Option String :=
  let page := w.listVersionsPage key tok
  if page.Versions.length > 0 then
    ([.listObjectVersionsCall bucket key tok,
      .deleteObjectsCall bucket (page.Versions.map (fun v => (v.1, some v.2)))],
      page.NextVersionIdMarker)
  else
    ([.listObjectVersionsCall bucket key tok], none)

/-- deleteVersionedObjects translates `deleteVersionedObjects`: for each
key it runs `listAndDelete(key)` and, when that hands back a truthy
continuation token, exactly one further `listAndDelete(key, token)` —
the second round's token is dropped, so at most two rounds run per key.
The per-key promises are fanned out by `Promise.all`; the trace records
them in key order (the order the calls are initiated). -/
def deleteVersionedObjects (w : S3World) (bucket : String)
    (keys : List String) : List Ev :=
  (keys.map (fun key =>
    let r1 := versionListAndDelete w bucket key none
    match r1.2 with
    | some t =>
      if t ≠ "" then r1.1 ++ (versionListAndDelete w bucket key (some t)).1
      else r1.1
    | none => r1.1)).flatten

/-- emptyListAndDelete translates the inner `listAndDelete` closure of
`emptyBucket`: list one page of objects and, if it is non-empty, delete
it in one batched call (via `deleteVersionedObjects` when versioning is
enabled) and hand back the page's `NextContinuationToken`. -/
def emptyListAndDelete (w : S3World) (bucket : String)
    (versioningEnabled : Bool) (tok : Option String) : List Ev × Option String :=
  let page := w.listPage tok
  if page.Contents.length > 0 then
    let delEvs :=
      if versioningEnabled then
        deleteVersionedObjects w bucket page.Contents
      else
        [.deleteObjectsCall bucket (page.Contents.map (fun k => (k, none)))]
    (.listObjectsCall bucket tok :: delEvs, page.NextContinuationToken)
  else
    ([.listObjectsCall bucket tok], none)

/-- emptyBucket translates `emptyBucket`: query versioning once, then
run `listAndDelete()` and, when that hands back a truthy continuation
token, exactly one further `listAndDelete(token)` — the second round's
token is dropped by the `.then(() => resolve())` chain, so at most two
pages are processed. -/
def emptyBucket (w : S3World) (bucket : String) : List Ev × Outcome :=
  let gv := Ev.getBucketVersioningCall bucket
  match w.versioningResult with
  | .error e =>
    if jsContains (jsErrToString e) "The specified bucket does not exist" then
      ([gv], .resolved .undef)
    else
      ([gv], .rejected (.error e.message))
  | .ok status =>
    let versioningEnabled := status = "Enabled"
    let r1 := emptyListAndDelete w bucket versioningEnabled none
    match r1.2 with
    | some t =>
      if t ≠ "" then
        (gv :: r1.1 ++ (emptyListAndDelete w bucket versioningEnabled (some t)).1,
          .resolved .undef)
      else
        (gv :: r1.1, .resolved .undef)
    | none => (gv :: r1.1, .resolved .undef)

/-- endsWithBucket models the `/.*Bucket$/` test on an output key: the
key ends with `"Bucket"`. -/
def endsWithBucket (key : String) : Bool :=
  "Bucket".data.isSuffixOf key.data

/-- DeleteWorld scripts the provider results consumed by `deleteStack`:
the initial `describeStacks` result, a per-bucket S3 world keyed by
bucket name, the `deleteStack` submit result and the poll script that
follows it. -/
structure DeleteWorld where
  describeResult : Except JsErr DescribeStacksData
  s3 : String → S3World
  deleteErr : Option JsErr
  pollStackScript : List (Except JsErr DescribeStacksData)

/-- deleteStack translates `deleteStack`.  In the describe-error branch
the source tests `err.message.indexOf('does not exist')` — the bare
index, not `>= 0` — so the branch is taken whenever the index is a
truthy number (any value other than `0`, including `-1`); `resolve()`
then settles the promise first and the unconditional `reject(err)` that
follows it is a no-op.  Only a message whose very first character starts
`does not exist` (index `0`, falsy) reaches the reject. -/
def deleteStack (w : DeleteWorld) (name : String) : List Ev × Outcome :=
  let de := Ev.describeStacksCall name
  match w.describeResult with
  | .error e =>
    if jsIndexOf e.message "does not exist" ≠ 0 then
      ([de], .resolved .undef)
    else
      ([de], .rejected (.error e.message))
  | .ok data =>
    let bucketOutputs :=
      (data.Stacks.headD defaultStack).Outputs.filter (fun o => endsWithBucket o.OutputKey)
    let runs := bucketOutputs.map (fun o => emptyBucket (w.s3 o.OutputValue) o.OutputValue)
    let emptyEvs := (runs.map (fun r => r.1)).flatten
    match runs.find? (fun r => match r.2 with | .rejected _ => true | _ => false) with
    | some rej => (de :: emptyEvs, rej.2)
    | none =>
      match w.deleteErr with
      | some e => (de :: emptyEvs ++ [Ev.deleteStackCall name], .rejected (.error e.message))
      | none =>
        let p := pollStack name w.pollStackScript
        (de :: emptyEvs ++ Ev.deleteStackCall name :: p.1, p.2)

/-- jsRegexSpace models the character class `\s` of a JavaScript regular
expression for the characters that occur in template files. -/
def jsRegexSpace (c : Char) : Bool :=
  c = ' ' || c = '\t' || c = '\n' || c = '\r' ||
    c = Char.ofNat 11 || c = Char.ofNat 12

/-- stripLit returns the remainder of the input after a literal, when
the literal is a prefix of the input. -/
def stripLit : List Char → List Char → Option (List Char)
  | [], s => some s
  | _ :: _, [] => none
  | p :: ps, c :: cs => if c = p then stripLit ps cs else none

/-- optQuote consumes one leading double quote if present (the `\"?`
pieces of the pattern; greedy matching is equivalent to backtracking
here because the characters that follow can never be a quote). -/
def optQuote : List Char → List Char
  | [] => []
  | c :: cs => if c = '"' then cs else c :: cs

/-- matchTransformAt decides whether the serverless-transform pattern
`Transform\"?\s*:\s*\"?AWS::Serverless` matches at the head of the
input. -/
def matchTransformAt (s : List Char) : Bool :=
  match stripLit "Transform".data s with
  | none => false
  | some s1 =>
    match (optQuote s1).dropWhile jsRegexSpace with
    | ':' :: s2 =>
      "AWS::Serverless".data.isPrefixOf (optQuote (s2.dropWhile jsRegexSpace))
    | _ => false

/-- anyTailHolds decides whether a predicate holds at some suffix of the
list (a regular-expression match may start anywhere). -/
def anyTailHolds (p : List Char → Bool) : List Char → Bool
  | [] => p []
  | c :: t => p (c :: t) || anyTailHolds p t

/-- testTransform translates the test
`/Transform\"?\s*:\s*\"?AWS::Serverless/.test(body)` used to detect
templates that need change-set handling. -/
def testTransform (body : String) : Bool :=
  anyTailHolds matchTransformAt body.data

/-- UpsertOptions models the normalized `options` argument of
`upsertStack`; `containsTransforms` is `some` exactly when the caller's
object has that property (`hasOwnProperty`). -/
structure UpsertOptions where
  review : Bool := false
  s3Bucket : Option String := none
  s3Prefix : Option String := none
  containsTransforms : Option Bool := none
deriving Repr, DecidableEq

/-- CFWorld scripts every provider interaction one `upsertStack` run can
consume: the filesystem, the existence probe, the submit results of each
stack/change-set call, the reviewer's answer, the change-set poll script
used after a change-set create (`pollCS1`) and after a change-set delete
(`pollCS2`), the stack poll script, and the clock read by
`generateChangeSetName`. -/
structure CFWorld where
  fs : String → Option String
  describeErr : Option JsErr
  putS3Err : Option JsErr
  createErr : Option JsErr
  updateErr : Option JsErr
  executeErr : Option JsErr
  createCSErr : Option JsErr
  deleteCSErr : Option JsErr
  reviewerAccepts : Bool
  pollCS1 : List (Except JsErr ChangeSetData)
  pollCS2 : List (Except JsErr ChangeSetData)
  pollStackScript : List (Except JsErr DescribeStacksData)
  nowMs : Nat

/-- generateChangeSetName translates `generateChangeSetName`:
`'cf-utils-cloudformation-upsert-stack-' + (Date.now() / 1000 | 0)`. -/
def generateChangeSetName (nowMs : Nat) : String :=
  "cf-utils-cloudformation-upsert-stack-" ++ toString (nowMs / 1000)

/-- createStack translates `createStack`: submit, then poll the stack. -/
def createStack (w : CFWorld) (name : String) (tmpl : TemplateRef) :
    List Ev × Outcome :=
  let ev := Ev.createStackCall name tmpl
  match w.createErr with
  | some e => ([ev], .rejected (.error e.message))
  | none =>
    let p := pollStack name w.pollStackScript
    (ev :: p.1, p.2)

/-- updateStack translates `updateStack`: submit; a submit error whose
`toString()` contains `No updates are to be performed` is logged and the
function falls through to polling the (unchanged) stack, any other
submit error rejects, and a successful submit polls the stack. -/
def updateStack (w : CFWorld) (name : String) (tmpl : TemplateRef) :
    List Ev × Outcome :=
  let ev := Ev.updateStackCall name tmpl
  match w.updateErr with
  | some e =>
    if jsContains (jsErrToString e) "No updates are to be performed" then
      let p := pollStack name w.pollStackScript
      (ev :: p.1, p.2)
    else
      ([ev], .rejected (.error e.message))
  | none =>
    let p := pollStack name w.pollStackScript
    (ev :: p.1, p.2)

/-- createChangeSet translates `createChangeSet`: submit, then poll the
change set (script `pollCS1`). -/
def createChangeSet (w : CFWorld) (stackName csName : String)
    (csType : Option String) (tmpl : TemplateRef) : List Ev × Outcome :=
  let ev := Ev.createChangeSetCall stackName csName csType tmpl
  match w.createCSErr with
  | some e => ([ev], .rejected (.error e.message))
  | none =>
    let p := pollChangeSet stackName csName w.pollCS1
    (ev :: p.1, p.2)

/-- deleteChangeSet translates `deleteChangeSet`: submit, then poll the
change set (script `pollCS2`). -/
def deleteChangeSet (w : CFWorld) (stackName csName : String) :
    List Ev × Outcome :=
  let ev := Ev.deleteChangeSetCall stackName csName
  match w.deleteCSErr with
  | some e => ([ev], .rejected (.error e.message))
  | none =>
    let p := pollChangeSet stackName csName w.pollCS2
    (ev :: p.1, p.2)

/-- executeChangeSet translates `executeChangeSet`: submit, then poll
the stack. -/
def executeChangeSet (w : CFWorld) (stackName csName : String) :
    List Ev × Outcome :=
  let ev := Ev.executeChangeSetCall stackName csName
  match w.executeErr with
  | some e => ([ev], .rejected (.error e.message))
  | none =>
    let p := pollStack stackName w.pollStackScript
    (ev :: p.1, p.2)

/-- applyChangeSet translates `applyChangeSet`: create a change set and,
when the poll resolves with a populated descriptor, execute it; a poll
that resolves empty (the no-op case) leaves the `.then` chain resolving
with `undefined`. -/
def applyChangeSet (w : CFWorld) (stackName csName : String)
    (csType : String) (tmpl : TemplateRef) : List Ev × Outcome :=
  let c := createChangeSet w stackName csName (some csType) tmpl
  match c.2 with
  | .resolved (.changeSet cs) =>
    let e := executeChangeSet w cs.StackName cs.ChangeSetName
    (c.1 ++ e.1, e.2)
  | .resolved _ => (c.1, .resolved .undef)
  | other => (c.1, other)

/-- executeUpdateFlow translates the `executeUpdate` closure of
`upsertStack`: with transforms, update via a generated UPDATE change
set; otherwise issue a direct update. -/
def executeUpdateFlow (w : CFWorld) (name : String) (ct : Bool)
    (tmpl : TemplateRef) : List Ev × Outcome :=
  if ct then
    applyChangeSet w name (generateChangeSetName w.nowMs) "UPDATE" tmpl
  else
    updateStack w name tmpl

/-- reviewFlow translates the review branch of `upsertStack` (stack
exists and `options.review` is set).  A populated preview change set is
shown to the reviewer, then deleted, and only then the run continues
with the update (acceptance) or rejects (rejection).  A preview that
resolves empty skips straight to polling the unchanged stack — no
change-set delete is issued on that path.  A rejection of the
`createChangeSet` promise is unhandled (`.then` without `.catch`), so
the surrounding promise never settles. -/
def reviewFlow (w : CFWorld) (name : String) (ct : Bool)
    (tmpl : TemplateRef) : List Ev × Outcome :=
  let csName := "cf-utils-" ++ name ++ "-preview"
  let c := createChangeSet w name csName none tmpl
  match c.2 with
  | .resolved (.changeSet _) =>
    let d := deleteChangeSet w name csName
    match d.2 with
    | .resolved _ =>
      if w.reviewerAccepts then
        let u := executeUpdateFlow w name ct tmpl
        (c.1 ++ d.1 ++ u.1, u.2)
      else
        (c.1 ++ d.1, .rejected (.str "Reviewer rejected stack update"))
    | _ => (c.1 ++ d.1, .hung)
  | .resolved _ =>
    let p := pollStack name w.pollStackScript
    (c.1 ++ p.1, p.2)
  | .rejected _ => (c.1, .hung)
  | other => (c.1, other)

/-- resolveTemplate translates the template-source resolution of
`upsertStack`: a script whose first ten characters are `https://s3`
becomes `TemplateURL`; otherwise the path must exist (else the promise
rejects before any provider call) and its contents become
`TemplateBody`. -/
def resolveTemplate (w : CFWorld) (script : String) :
    Except RejectVal TemplateRef :=
  if script.take 10 = "https://s3" then .ok (.url script)
  else
    match w.fs script with
    | none => .error (.error (script ++ " does not exist!"))
    | some b => .ok (.body b)

/-- computeCT translates the `containsTransforms` resolution at the top
of `upsertStack`: the caller-supplied flag when present, otherwise the
result of scanning the template read by `fs.readFileSync` — which throws
an ENOENT exception when the path does not resolve to a file. -/
def computeCT (w : CFWorld) (script : String) (opts : UpsertOptions) :
    Except JsErr Bool :=
  match opts.containsTransforms with
  | some b => .ok b
  | none =>
    match w.fs script with
    | none => .error ⟨"ENOENT: no such file or directory, open " ++ script⟩
    | some body => .ok (testTransform body)

/-- upsertMain translates the body of the `new Promise` executor of
`upsertStack` (everything after the S3-staging branch): resolve the
template source, probe for the stack with `describeStacks` (any probe
error selects the create branch), then create, review, or update. -/
def upsertMain (w : CFWorld) (name script : String) (review ct : Bool) :
    List Ev × Outcome :=
  match resolveTemplate w script with
  | .error r => ([], .rejected r)
  | .ok tmpl =>
    let probe := Ev.describeStacksCall name
    match w.describeErr with
    | some _ =>
      if ct then
        let a := applyChangeSet w name (generateChangeSetName w.nowMs) "CREATE" tmpl
        (probe :: a.1, a.2)
      else
        let cr := createStack w name tmpl
        (probe :: cr.1, cr.2)
    | none =>
      if review then
        let rv := reviewFlow w name ct tmpl
        (probe :: rv.1, rv.2)
      else
        let u := executeUpdateFlow w name ct tmpl
        (probe :: u.1, u.2)

/-- upsertStack translates `upsertStack` on normalized options.  The
`containsTransforms` scan runs first (and can throw).  With `s3Bucket`
set, the template is staged to S3 under the key
`` `${options.s3Prefix}${script}` `` and the source recurses on the
`https://s3.amazonaws.com/...` URL with `s3Bucket` cleared and the scan
result carried forward; that recursive call necessarily takes the main
path, which is inlined here as `upsertMain`. -/
def upsertStack (w : CFWorld) (name script : String)
    (opts : UpsertOptions) : List Ev × Outcome :=
  match computeCT w script opts with
  | .error e => ([], .threw e)
  | .ok ct =>
    match opts.s3Bucket with
    | some bucket =>
      let key := jsStr opts.s3Prefix ++ script
      let put := Ev.putS3ObjectCall bucket key
      match w.putS3Err with
      | some e => ([put], .rejected (.error e.message))
      | none =>
        let url := "https://s3.amazonaws.com/" ++ bucket ++ "/" ++ jsStr opts.s3Prefix ++ script
        let m := upsertMain w name url opts.review ct
        (put :: m.1, m.2)
    | none => upsertMain w name script opts.review ct

/-- upsertStackBoolCompat translates the backwards-compatible call shape
in which `options` is the boolean `review` flag. -/
def upsertStackBoolCompat (w : CFWorld) (name script : String)
    (review : Bool) : List Ev × Outcome :=
  upsertStack w name script { review := review }

/-- paramOverrides translates the parameter-string construction of
`deployStack`: each entry contributes `Key="Value" ` (with a trailing
blank). -/
def paramOverrides (ps : List Parameter) : String :=
  ps.foldl (fun acc p => acc ++ p.ParameterKey ++ "=\x22" ++ p.ParameterValue ++ "\x22 ") ""

/-- deployStack translates `deployStack`: spawn the CLI subprocess and,
on close, resolve by describing the stack when the exit code is `0` or
the captured stderr contains `No changes to deploy`; otherwise reject
with the string `Stack deploy failed`. -/
def deployStack (name script : String) (ps : List Parameter)
    (exitCode : Int) (stderrText : String)
    (describeResult : Except JsErr DescribeStacksData) : List Ev × Outcome :=
  let ev := Ev.spawnDeployCall name script (paramOverrides ps)
  if exitCode ≠ 0 then
    if jsContains stderrText "No changes to deploy" then
      match describeResult with
      | .error e => ([ev, .describeStacksCall name], .rejected (.error e.message))
      | .ok d => ([ev, .describeStacksCall name], .resolved (.stack (d.Stacks.headD defaultStack)))
    else
      ([ev], .rejected (.str "Stack deploy failed"))
  else
    match describeResult with
    | .error e => ([ev, .describeStacksCall name], .rejected (.error e.message))
    | .ok d => ([ev, .describeStacksCall name], .resolved (.stack (d.Stacks.headD defaultStack)))

/-- isListObjectsEv recognizes a page-listing call in a trace. -/
def isListObjectsEv : Ev → Bool
  | .listObjectsCall _ _ => true
  | _ => false

/-- isDeleteObjectsEv recognizes a batched delete call in a trace. -/
def isDeleteObjectsEv : Ev → Bool
  | .deleteObjectsCall _ _ => true
  | _ => false

/-- isDeleteCSEv recognizes a change-set delete call in a trace. -/
def isDeleteCSEv : Ev → Bool
  | .deleteChangeSetCall _ _ => true
  | _ => false

/-- isProceedEv recognizes the mutating calls an upsert can proceed
with after a review: a direct update, a stack create, a change-set
execute, or the creation of a typed (CREATE/UPDATE) change set — the
untyped preview change set is not one. -/
def isProceedEv : Ev → Bool
  | .updateStackCall _ _ => true
  | .createStackCall _ _ => true
  | .executeChangeSetCall _ _ => true
  | .createChangeSetCall _ _ (some _) _ => true
  | _ => false

/-- isCsPollEv recognizes the events a change-set poll can emit. -/
def isCsPollEv : Ev → Bool
  | .describeChangeSetCall _ _ => true
  | .delay _ => true
  | .warnChangeSet _ => true
  | _ => false

/-- stackStatusOf extracts `data.Stacks[0].StackStatus`. -/
def stackStatusOf (d : DescribeStacksData) : String :=
  (d.Stacks.headD defaultStack).StackStatus

/-- isStackTerminalStatus decides whether a stack status is one of the
seven statuses `pollStack` stops at. -/
def isStackTerminalStatus (st : String) : Bool :=
  st = "CREATE_COMPLETE" || st = "UPDATE_COMPLETE" || st = "ROLLBACK_COMPLETE" ||
    st = "CREATE_FAILED" || st = "UPDATE_FAILED" || st = "DELETE_FAILED" ||
    st = "UPDATE_ROLLBACK_COMPLETE"

/-- isCsTerminalStatus decides whether a change-set status is one of
the four statuses `pollChangeSet` stops at. -/
def isCsTerminalStatus (st : String) : Bool :=
  st = "CREATE_COMPLETE" || st = "UPDATE_COMPLETE" || st = "DELETE_COMPLETE" ||
    st = "FAILED"

/-- threePageWorld scripts an unversioned bucket whose listing yields
three pages of 1000, 1000 and 42 objects, chained by continuation
tokens `t1` and `t2`, with no token after the third page. -/
def threePageWorld : S3World where
  versioningResult := .ok ""
  listPage := fun tok =>
    match tok with
    | none => ⟨List.replicate 1000 "k", some "t1"⟩
    | some "t1" => ⟨List.replicate 1000 "k", some "t2"⟩
    | some "t2" => ⟨List.replicate 42 "k", none⟩
    | some _ => ⟨[], none⟩
  listVersionsPage := fun _ _ => ⟨[], none⟩

/-- drainedBucketWorld scripts an unversioned bucket that is already
empty: every listing returns an empty page with no token. -/
def drainedBucketWorld : S3World where
  versioningResult := .ok ""
  listPage := fun _ => ⟨[], none⟩
  listVersionsPage := fun _ _ => ⟨[], none⟩

/-- transportErrWorld scripts a `deleteStack` run whose initial
`describeStacks` fails with a transport-level (network) error. -/
def transportErrWorld : DeleteWorld where
  describeResult := .error ⟨"connect ETIMEDOUT"⟩
  s3 := fun _ => drainedBucketWorld
  deleteErr := none
  pollStackScript := []

/-- reviewNoopWorld scripts a reviewed upsert of an existing stack with
zero drift: the probe succeeds, the preview change set fails with the
no-changes reason (so its poll resolves empty), and the stack poll
finds the unchanged stack in UPDATE_COMPLETE. -/
def reviewNoopWorld : CFWorld where
  fs := fun _ => some "Resources: {}"
  describeErr := none
  putS3Err := none
  createErr := none
  updateErr := none
  executeErr := none
  createCSErr := none
  deleteCSErr := none
  reviewerAccepts := true
  pollCS1 := [.ok ⟨"FAILED",
    "The submitted information didn\x27t contain changes. Submit different information to create a change set.",
    "app-stack", "cf-utils-app-stack-preview"⟩]
  pollCS2 := []
  pollStackScript := [.ok ⟨[⟨"UPDATE_COMPLETE", []⟩]⟩]
  nowMs := 0

/-- missingTemplateWorld scripts an upsert whose filesystem holds no
files at all. -/
def missingTemplateWorld : CFWorld where
  fs := fun _ => none
  describeErr := none
  putS3Err := none
  createErr := none
  updateErr := none
  executeErr := none
  createCSErr := none
  deleteCSErr := none
  reviewerAccepts := false
  pollCS1 := []
  pollCS2 := []
  pollStackScript := []
  nowMs := 0

/-- reviewPopulatedWorld scripts a reviewed upsert of an existing stack
with drift: the preview change set resolves populated, the reviewer
declines, and the preview's deletion poll finds it already gone. -/
def reviewPopulatedWorld : CFWorld where
  fs := fun _ => some "Resources: {}"
  describeErr := none
  putS3Err := none
  createErr := none
  updateErr := none
  executeErr := none
  createCSErr := none
  deleteCSErr := none
  reviewerAccepts := false
  pollCS1 := [.ok ⟨"CREATE_COMPLETE", "", "app-stack", "cf-utils-app-stack-preview"⟩]
  pollCS2 := [.error ⟨"ChangeSet cf-utils-app-stack-preview does not exist"⟩]
  pollStackScript := [.ok ⟨[⟨"UPDATE_COMPLETE", []⟩]⟩]
  nowMs := 0

theorem pollStack_step (name : String) (d : DescribeStacksData)
    (rest : List (Except JsErr DescribeStacksData))
    (h : isStackTerminalStatus (stackStatusOf d) = false) :
    pollStack name (.ok d :: rest) =
      (.describeStacksCall name :: .delay 5000 :: (pollStack name rest).1,
        (pollStack name rest).2) := by
  simp only [isStackTerminalStatus, stackStatusOf, Bool.or_eq_false_iff,
    decide_eq_false_iff_not] at h
  obtain ⟨⟨⟨⟨⟨⟨h1, h2⟩, h3⟩, h4⟩, h5⟩, h6⟩, h7⟩ := h
  simp only [pollStack]
  rw [if_neg (by tauto), if_neg (by tauto)]

theorem pollChangeSet_step (sn cn : String) (cs : ChangeSetData)
    (rest : List (Except JsErr ChangeSetData))
    (h : isCsTerminalStatus cs.Status = false) :
    pollChangeSet sn cn (.ok cs :: rest) =
      (.describeChangeSetCall sn cn :: .delay 5000 :: (pollChangeSet sn cn rest).1,
        (pollChangeSet sn cn rest).2) := by
  simp only [isCsTerminalStatus, Bool.or_eq_false_iff,
    decide_eq_false_iff_not] at h
  obtain ⟨⟨⟨h1, h2⟩, h3⟩, h4⟩ := h
  simp only [pollChangeSet]
  rw [if_neg (by tauto), if_neg (by tauto)]

/-- C2: for every stack-polling run, a describe result whose status is
CREATE_COMPLETE or UPDATE_COMPLETE resolves with the data in one round;
a status in {ROLLBACK_COMPLETE, CREATE_FAILED, UPDATE_FAILED,
DELETE_FAILED, UPDATE_ROLLBACK_COMPLETE} rejects with the `Stack
operation failed` error after logging the full stack detail; and the
run after either terminal observation is independent of any further
scripted results — no further poll iteration occurs. -/
theorem pollStack_terminal_classification (name : String)
    (d : DescribeStacksData) (rest : List (Except JsErr DescribeStacksData)) :
    ((stackStatusOf d = "CREATE_COMPLETE" ∨ stackStatusOf d = "UPDATE_COMPLETE") →
      pollStack name (.ok d :: rest) =
        ([.describeStacksCall name], .resolved (.stacksData d)))
    ∧ ((stackStatusOf d = "ROLLBACK_COMPLETE" ∨ stackStatusOf d = "CREATE_FAILED" ∨
        stackStatusOf d = "UPDATE_FAILED" ∨ stackStatusOf d = "DELETE_FAILED" ∨
        stackStatusOf d = "UPDATE_ROLLBACK_COMPLETE") →
      pollStack name (.ok d :: rest) =
        ([.describeStacksCall name, .warnStackDetails d],
          .rejected (.error "Stack operation failed"))) := by
  constructor
  · intro h
    simp only [pollStack, stackStatusOf] at *
    rw [if_pos h]
  · intro h
    simp only [pollStack, stackStatusOf] at *
    rw [if_neg (by rcases h with h | h | h | h | h <;> rw [h] <;> decide), if_pos h]

theorem pollStack_terminal_classification_witness :
    pollStack "app-stack" [.ok ⟨[⟨"UPDATE_FAILED", []⟩]⟩] =
      ([.describeStacksCall "app-stack", .warnStackDetails ⟨[⟨"UPDATE_FAILED", []⟩]⟩],
        .rejected (.error "Stack operation failed")) :=
  (pollStack_terminal_classification "app-stack" ⟨[⟨"UPDATE_FAILED", []⟩]⟩ []).2
    (by right; right; left; rfl)

/-- C9: for every stack or change-set status that is not terminal, the
poller does not settle on that observation: it emits a fixed 5000 ms
delay and continues with the rest of the script (both trace and outcome
pass through unchanged, so in particular no rejection happens on the
non-terminal observation); and for every retry count `n` — there is no
maximum — a script of `n` non-terminal observations followed by a
successful terminal one still resolves with that terminal result. -/
theorem poll_nonterminal_retries (name sn cn : String)
    (d dterm : DescribeStacksData) (cs csterm : ChangeSetData)
    (rest : List (Except JsErr DescribeStacksData))
    (restc : List (Except JsErr ChangeSetData)) (n m : Nat)
    (hd : isStackTerminalStatus (stackStatusOf d) = false)
    (hc : isCsTerminalStatus cs.Status = false)
    (hdt : stackStatusOf dterm = "CREATE_COMPLETE")
    (hct : csterm.Status = "CREATE_COMPLETE") :
    (pollStack name (.ok d :: rest) =
      (.describeStacksCall name :: .delay 5000 :: (pollStack name rest).1,
        (pollStack name rest).2))
    ∧ (pollChangeSet sn cn (.ok cs :: restc) =
      (.describeChangeSetCall sn cn :: .delay 5000 :: (pollChangeSet sn cn restc).1,
        (pollChangeSet sn cn restc).2))
    ∧ ((pollStack name (List.replicate n (.ok d) ++ [.ok dterm])).2 =
        .resolved (.stacksData dterm))
    ∧ ((pollChangeSet sn cn (List.replicate m (.ok cs) ++ [.ok csterm])).2 =
        .resolved (.changeSet csterm)) := by
  refine ⟨pollStack_step name d rest hd, pollChangeSet_step sn cn cs restc hc, ?_, ?_⟩
  · induction n with
    | zero =>
      simp only [List.replicate, List.nil_append, pollStack, stackStatusOf] at *
      rw [if_pos (Or.inl hdt)]
    | succ k ih =>
      rw [List.replicate_succ, List.cons_append, pollStack_step name d _ hd]
      exact ih
  · induction m with
    | zero =>
      simp only [List.replicate, List.nil_append, pollChangeSet] at *
      rw [if_pos (Or.inl hct)]
    | succ k ih =>
      rw [List.replicate_succ, List.cons_append, pollChangeSet_step sn cn cs _ hc]
      exact ih

theorem poll_nonterminal_retries_witness :
    (pollStack "s" [.ok ⟨[⟨"UPDATE_IN_PROGRESS", []⟩]⟩,
        .ok ⟨[⟨"CREATE_COMPLETE", []⟩]⟩]).2 =
      .resolved (.stacksData ⟨[⟨"CREATE_COMPLETE", []⟩]⟩) :=
  (poll_nonterminal_retries "s" "s" "c"
      ⟨[⟨"UPDATE_IN_PROGRESS", []⟩]⟩ ⟨[⟨"CREATE_COMPLETE", []⟩]⟩
      ⟨"CREATE_IN_PROGRESS", "", "s", "c"⟩ ⟨"CREATE_COMPLETE", "", "s", "c"⟩
      [] [] 1 1 (by decide) (by decide) (by decide) (by decide)).2.2.1

/-- C3 counterexample: a FAILED change set whose reason text is exactly
the claim's quoted marker `no updates to be performed` — which the
reason therefore contains — is rejected by the poller, because the code
matches the different string `No updates are to be performed`. -/
theorem pollChangeSet_claimed_marker_rejects :
    (pollChangeSet "s" "c"
        [.ok ⟨"FAILED", "no updates to be performed", "s", "c"⟩]).2 =
      .rejected (.error "Changeset creation failed")
    ∧ jsContains "no updates to be performed" "no updates to be performed" = true := by
  constructor
  · rfl
  · rfl

/-- C3 amended: for every change-set polling run, a FAILED status whose
reason text contains `No updates are to be performed` or `didn't
contain changes` resolves successfully with an empty result; a FAILED
status containing neither marker rejects; and CREATE_COMPLETE,
UPDATE_COMPLETE and DELETE_COMPLETE resolve with the change-set
descriptor. -/
theorem pollChangeSet_noop_classification (sn cn : String)
    (cs : ChangeSetData) (rest : List (Except JsErr ChangeSetData)) :
    (cs.Status = "FAILED" →
      (jsContains cs.StatusReason "No updates are to be performed" = true ∨
        jsContains cs.StatusReason "didn\x27t contain changes" = true) →
      pollChangeSet sn cn (.ok cs :: rest) =
        ([.describeChangeSetCall sn cn], .resolved .undef))
    ∧ (cs.Status = "FAILED" →
      jsContains cs.StatusReason "No updates are to be performed" = false →
      jsContains cs.StatusReason "didn\x27t contain changes" = false →
      pollChangeSet sn cn (.ok cs :: rest) =
        ([.describeChangeSetCall sn cn, .warnChangeSet cs],
          .rejected (.error "Changeset creation failed")))
    ∧ ((cs.Status = "CREATE_COMPLETE" ∨ cs.Status = "UPDATE_COMPLETE" ∨
        cs.Status = "DELETE_COMPLETE") →
      pollChangeSet sn cn (.ok cs :: rest) =
        ([.describeChangeSetCall sn cn], .resolved (.changeSet cs))) := by
  refine ⟨?_, ?_, ?_⟩
  · intro hs hr
    simp only [pollChangeSet]
    rw [if_neg (by rw [hs]; decide), if_pos hs, if_pos (by tauto)]
  · intro hs h1 h2
    simp only [pollChangeSet]
    rw [if_neg (by rw [hs]; decide), if_pos hs,
      if_neg (by simp [h1, h2])]
  · intro hs
    simp only [pollChangeSet]
    rw [if_pos hs]

theorem pollChangeSet_noop_classification_witness :
    pollChangeSet "s" "c"
        [.ok ⟨"FAILED", "The submitted information didn\x27t contain changes.", "s", "c"⟩] =
      ([.describeChangeSetCall "s" "c"], .resolved .undef) :=
  (pollChangeSet_noop_classification "s" "c"
      ⟨"FAILED", "The submitted information didn\x27t contain changes.", "s", "c"⟩ []).1
    rfl (Or.inr (by decide))

/-- C7: for every direct stack update whose submit error's string form
contains `No updates are to be performed`, updateStack proceeds to poll
the unchanged stack instead of rejecting (its trace and outcome are the
submit event followed by the stack poll); any other submit error
rejects with that error. -/
theorem updateStack_noop_classification (w : CFWorld) (name : String)
    (tmpl : TemplateRef) (e : JsErr) (he : w.updateErr = some e) :
    (jsContains (jsErrToString e) "No updates are to be performed" = true →
      updateStack w name tmpl =
        (Ev.updateStackCall name tmpl :: (pollStack name w.pollStackScript).1,
          (pollStack name w.pollStackScript).2))
    ∧ (jsContains (jsErrToString e) "No updates are to be performed" = false →
      updateStack w name tmpl =
        ([Ev.updateStackCall name tmpl], .rejected (.error e.message))) := by
  constructor
  · intro h
    simp only [updateStack, he, h, if_true]
  · intro h
    simp only [updateStack, he, h, Bool.false_eq_true, if_false]

theorem updateStack_noop_classification_witness :
    updateStack
        { fs := fun _ => none, describeErr := none, putS3Err := none,
          createErr := none,
          updateErr := some ⟨"ValidationError: No updates are to be performed."⟩,
          executeErr := none, createCSErr := none, deleteCSErr := none,
          reviewerAccepts := false, pollCS1 := [], pollCS2 := [],
          pollStackScript := [.ok ⟨[⟨"UPDATE_COMPLETE", []⟩]⟩], nowMs := 0 }
        "app-stack" (.body "{}") =
      ([Ev.updateStackCall "app-stack" (.body "{}"),
          Ev.describeStacksCall "app-stack"],
        .resolved (.stacksData ⟨[⟨"UPDATE_COMPLETE", []⟩]⟩)) :=
  (updateStack_noop_classification
      { fs := fun _ => none, describeErr := none, putS3Err := none,
        createErr := none,
        updateErr := some ⟨"ValidationError: No updates are to be performed."⟩,
        executeErr := none, createCSErr := none, deleteCSErr := none,
        reviewerAccepts := false, pollCS1 := [], pollCS2 := [],
        pollStackScript := [.ok ⟨[⟨"UPDATE_COMPLETE", []⟩]⟩], nowMs := 0 }
      "app-stack" (.body "{}")
      ⟨"ValidationError: No updates are to be performed."⟩ rfl).1 (by decide)

/-- C8: for every CLI deploy whose describe of the now-current stack
succeeds, the run resolves with that stack exactly when the subprocess
exits with code `0` or exits non-zero with captured stderr containing
`No changes to deploy`; a non-zero exit without that marker rejects
with the string `Stack deploy failed`. -/
theorem deployStack_success_iff (name script : String)
    (ps : List Parameter) (exitCode : Int) (stderrText : String)
    (d : DescribeStacksData) :
    ((deployStack name script ps exitCode stderrText (.ok d)).2 =
        .resolved (.stack (d.Stacks.headD defaultStack)) ↔
      (exitCode = 0 ∨ jsContains stderrText "No changes to deploy" = true))
    ∧ (exitCode ≠ 0 → jsContains stderrText "No changes to deploy" = false →
      (deployStack name script ps exitCode stderrText (.ok d)).2 =
        .rejected (.str "Stack deploy failed")) := by
  constructor
  · by_cases hc : exitCode = 0
    · simp [deployStack, hc]
    · by_cases hs : jsContains stderrText "No changes to deploy" = true
      · simp [deployStack, hc, hs]
      · simp [deployStack, hc, hs]
  · intro hc hs
    simp [deployStack, hc, hs]

theorem deployStack_success_iff_witness :
    (deployStack "app-stack" "template.yaml" [] 255 "An error occurred"
        (.ok ⟨[⟨"UPDATE_COMPLETE", []⟩]⟩)).2 =
      .rejected (.str "Stack deploy failed") :=
  (deployStack_success_iff "app-stack" "template.yaml" [] 255 "An error occurred"
      ⟨[⟨"UPDATE_COMPLETE", []⟩]⟩).2 (by decide) (by decide)

set_option maxRecDepth 100000 in
/-- C1: evaluated on a bucket with three pages of 1000/1000/42 objects,
`emptyBucket` issues exactly two list calls and two delete-batch calls
— the second page's continuation token is dropped by the promise chain,
so the third page is never listed or deleted, against the claimed three
of each; on an already-empty bucket it issues zero delete calls. -/
theorem emptyBucket_truncates_after_two_pages :
    ((emptyBucket threePageWorld "test-bucket").1.countP isListObjectsEv = 2)
    ∧ ((emptyBucket threePageWorld "test-bucket").1.countP isDeleteObjectsEv = 2)
    ∧ ((emptyBucket threePageWorld "test-bucket").2 = .resolved .undef)
    ∧ ((emptyBucket drainedBucketWorld "test-bucket").1.countP isDeleteObjectsEv = 0)
    ∧ ((emptyBucket drainedBucketWorld "test-bucket").2 = .resolved .undef) := by
  refine ⟨rfl, rfl, rfl, rfl, rfl⟩

/-- C5: evaluated on a `describeStacks` failure carrying a transport
error (`connect ETIMEDOUT`) whose message does not contain `does not
exist`, `deleteStack` resolves successfully as if the stack were absent
— the `err.message.indexOf('does not exist')` test lacks the `>= 0`
comparison, so `-1` is truthy and `resolve()` settles the promise
before the fall-through `reject(err)` — against the claim that such an
error is propagated as a rejection. -/
theorem deleteStack_transport_error_resolves :
    deleteStack transportErrWorld "app-stack" =
      ([.describeStacksCall "app-stack"], .resolved .undef)
    ∧ jsContains "connect ETIMEDOUT" "does not exist" = false := by
  exact ⟨rfl, rfl⟩

/-- C6: for every upsert whose template source is a local path (not an
`https://s3` URL) that does not resolve to an existing file, and whose
options either leave the internal `containsTransforms` flag unset or do
not request S3 staging, the call fails — with the ENOENT exception of
the transform scan's file read, or with the `does not exist!` rejection
of the existence check — before any provider API call is made: the
trace is empty. -/
theorem upsertStack_missing_template_fails_fast (w : CFWorld)
    (name script : String) (opts : UpsertOptions)
    (hfs : w.fs script = none)
    (hlocal : ¬ script.take 10 = "https://s3")
    (hopts : opts.containsTransforms = none ∨ opts.s3Bucket = none) :
    (upsertStack w name script opts).1 = []
    ∧ ((upsertStack w name script opts).2 =
        .threw ⟨"ENOENT: no such file or directory, open " ++ script⟩
      ∨ (upsertStack w name script opts).2 =
        .rejected (.error (script ++ " does not exist!"))) := by
  cases hct : opts.containsTransforms with
  | none =>
    have heq : upsertStack w name script opts =
        ([], .threw ⟨"ENOENT: no such file or directory, open " ++ script⟩) := by
      unfold upsertStack
      rw [show computeCT w script opts =
          .error ⟨"ENOENT: no such file or directory, open " ++ script⟩ by
        unfold computeCT; rw [hct, hfs]]
    rw [heq]
    exact ⟨rfl, Or.inl rfl⟩
  | some b =>
    have hb : opts.s3Bucket = none := by
      rcases hopts with h | h
      · rw [hct] at h; exact absurd h (by simp)
      · exact h
    have heq : upsertStack w name script opts =
        ([], .rejected (.error (script ++ " does not exist!"))) := by
      unfold upsertStack
      rw [show computeCT w script opts = .ok b by unfold computeCT; rw [hct]]
      rw [hb]
      unfold upsertMain
      rw [show resolveTemplate w script =
          .error (.error (script ++ " does not exist!")) by
        unfold resolveTemplate; rw [if_neg hlocal, hfs]]
    rw [heq]
    exact ⟨rfl, Or.inr rfl⟩

theorem upsertStack_missing_template_fails_fast_witness :
    (upsertStack missingTemplateWorld "app-stack" "missing.json"
        { review := true }).1 = [] :=
  (upsertStack_missing_template_fails_fast missingTemplateWorld "app-stack"
      "missing.json" { review := true } rfl (by decide) (Or.inl rfl)).1

/-- C10: for every upsert with `s3Bucket` set and `s3Prefix` omitted,
the template is uploaded under the object key obtained by prepending the
string `undefined` to the script path — the template literal
stringifies the absent prefix — which is never the bare script path,
and the run continues exactly as the recursive `upsertStack` call on
the `https://s3.amazonaws.com/<bucket>/undefined<script>` URL with the
transform flag carried forward. -/
theorem upsertStack_omitted_prefix_uses_undefined (w : CFWorld)
    (name script : String) (opts : UpsertOptions) (b : String) (ct : Bool)
    (hb : opts.s3Bucket = some b)
    (hp : opts.s3Prefix = none)
    (hct : computeCT w script opts = .ok ct)
    (hput : w.putS3Err = none) :
    (upsertStack w name script opts =
      (Ev.putS3ObjectCall b ("undefined" ++ script) ::
        (upsertStack w name
          ("https://s3.amazonaws.com/" ++ b ++ "/" ++ "undefined" ++ script)
          { review := opts.review, containsTransforms := some ct }).1,
       (upsertStack w name
          ("https://s3.amazonaws.com/" ++ b ++ "/" ++ "undefined" ++ script)
          { review := opts.review, containsTransforms := some ct }).2))
    ∧ "undefined" ++ script ≠ script := by
  constructor
  · unfold upsertStack
    rw [hct, hb, hp, hput]
    rfl
  · intro h
    have hl := congrArg String.length h
    rw [String.length_append] at hl
    have h9 : "undefined".length = 9 := rfl
    omega

theorem upsertStack_omitted_prefix_uses_undefined_witness :
    ((upsertStack reviewNoopWorld "app-stack" "template.json"
        { s3Bucket := some "staging-bucket" }).1.take 1 =
      [Ev.putS3ObjectCall "staging-bucket" ("undefined" ++ "template.json")]) := by
  have h := upsertStack_omitted_prefix_uses_undefined reviewNoopWorld
    "app-stack" "template.json" { s3Bucket := some "staging-bucket" }
    "staging-bucket" false rfl rfl (by rfl) rfl
  rw [h.1]
  rfl

theorem all_of_all_mono {α : Type} {p q : α → Bool}
    (h : ∀ a, p a = true → q a = true) :
    ∀ l : List α, l.all p = true → l.all q = true := by
  intro l hl
  rw [List.all_eq_true] at hl ⊢
  exact fun a ha => h a (hl a ha)

theorem takeWhile_append_of_all {α : Type} (p : α → Bool) :
    ∀ (l1 l2 : List α), l1.all p = true →
      (l1 ++ l2).takeWhile p = l1 ++ l2.takeWhile p := by
  intro l1
  induction l1 with
  | nil => intro l2 _; rfl
  | cons a t ih =>
    intro l2 h
    rw [List.all_cons, Bool.and_eq_true] at h
    rw [List.cons_append, List.takeWhile_cons_of_pos h.1, ih l2 h.2]
    rfl

theorem pollChangeSet_events_are_poll (sn cn : String) :
    ∀ script, ((pollChangeSet sn cn script).1).all isCsPollEv = true := by
  intro script
  induction script with
  | nil => rfl
  | cons r rest ih =>
    cases r with
    | error e =>
      by_cases h : jsContains e.message "does not exist" = true
      · simp [pollChangeSet, h, isCsPollEv]
      · simp only [Bool.not_eq_true] at h
        simp [pollChangeSet, h, isCsPollEv]
    | ok cs =>
      simp only [pollChangeSet]
      split
      · simp [isCsPollEv]
      · split
        · split
          · simp [isCsPollEv]
          · simp [isCsPollEv]
        · simp [isCsPollEv, ih]

/-- C4 counterexample: in the scripted no-op review run — stack exists,
review requested, the preview change set resolves empty — the upsert
reaches an outcome (it resolves with the unchanged stack) while its
trace contains no change-set delete call at all, so the preview is not
deleted in every outcome. -/
theorem upsertStack_review_noop_skips_delete :
    ((upsertStack reviewNoopWorld "app-stack" "template.json"
        { review := true }).1.any isDeleteCSEv = false)
    ∧ ((upsertStack reviewNoopWorld "app-stack" "template.json"
        { review := true }).2 =
      .resolved (.stacksData ⟨[⟨"UPDATE_COMPLETE", []⟩]⟩)) :=
  ⟨rfl, rfl⟩

/-- C4 amended: for every reviewed upsert on an existing stack whose
preview change set resolves populated and whose deletion call resolves,
the preview change-set delete is issued, no mutating (proceed) call
occurs before it, and after it the run continues with the update on
reviewer acceptance or rejects with `Reviewer rejected stack update` on
reviewer rejection; in the no-op case where the preview resolves empty,
no delete is issued (see the counterexample run). -/
theorem upsertStack_review_deletes_before_proceed (w : CFWorld)
    (name script : String) (opts : UpsertOptions) (tmpl : TemplateRef)
    (ct : Bool) (cs : ChangeSetData) (v : ResolveVal)
    (hb : opts.s3Bucket = none)
    (hreview : opts.review = true)
    (hct : computeCT w script opts = .ok ct)
    (ht : resolveTemplate w script = .ok tmpl)
    (hexists : w.describeErr = none)
    (hcse : w.createCSErr = none)
    (hpop : (pollChangeSet name ("cf-utils-" ++ name ++ "-preview") w.pollCS1).2 =
      .resolved (.changeSet cs))
    (hdelerr : w.deleteCSErr = none)
    (hpoll2 : (pollChangeSet name ("cf-utils-" ++ name ++ "-preview") w.pollCS2).2 =
      .resolved v) :
    ((upsertStack w name script opts).1.any isDeleteCSEv = true)
    ∧ (((upsertStack w name script opts).1.takeWhile
          (fun e => !(isDeleteCSEv e))).all (fun e => !(isProceedEv e)) = true)
    ∧ (w.reviewerAccepts = false →
        (upsertStack w name script opts).2 =
          .rejected (.str "Reviewer rejected stack update"))
    ∧ (w.reviewerAccepts = true →
        (upsertStack w name script opts).2 = (executeUpdateFlow w name ct tmpl).2) := by
  have hcsF : createChangeSet w name ("cf-utils-" ++ name ++ "-preview") none tmpl =
      (Ev.createChangeSetCall name ("cf-utils-" ++ name ++ "-preview") none tmpl ::
        (pollChangeSet name ("cf-utils-" ++ name ++ "-preview") w.pollCS1).1,
       (pollChangeSet name ("cf-utils-" ++ name ++ "-preview") w.pollCS1).2) := by
    unfold createChangeSet; rw [hcse]
  have hdelF : deleteChangeSet w name ("cf-utils-" ++ name ++ "-preview") =
      (Ev.deleteChangeSetCall name ("cf-utils-" ++ name ++ "-preview") ::
        (pollChangeSet name ("cf-utils-" ++ name ++ "-preview") w.pollCS2).1,
       (pollChangeSet name ("cf-utils-" ++ name ++ "-preview") w.pollCS2).2) := by
    unfold deleteChangeSet; rw [hdelerr]
  have hmain : upsertStack w name script opts =
      (Ev.describeStacksCall name :: (reviewFlow w name ct tmpl).1,
        (reviewFlow w name ct tmpl).2) := by
    unfold upsertStack
    rw [hct, hb]
    unfold upsertMain
    rw [ht, hexists, hreview]
    rfl
  have hq1 : ∀ a, isCsPollEv a = true → (!(isDeleteCSEv a)) = true := by
    intro a ha; cases a <;> simp_all [isCsPollEv, isDeleteCSEv]
  have hq2 : ∀ a, isCsPollEv a = true → (!(isProceedEv a)) = true := by
    intro a ha; cases a <;> simp_all [isCsPollEv, isProceedEv]
  have hall1 := all_of_all_mono hq1 _
    (pollChangeSet_events_are_poll name ("cf-utils-" ++ name ++ "-preview") w.pollCS1)
  have hall2 := all_of_all_mono hq2 _
    (pollChangeSet_events_are_poll name ("cf-utils-" ++ name ++ "-preview") w.pollCS1)
  cases hacc : w.reviewerAccepts with
  | false =>
    have hrf : reviewFlow w name ct tmpl =
        ((Ev.createChangeSetCall name ("cf-utils-" ++ name ++ "-preview") none tmpl ::
            (pollChangeSet name ("cf-utils-" ++ name ++ "-preview") w.pollCS1).1) ++
          (Ev.deleteChangeSetCall name ("cf-utils-" ++ name ++ "-preview") ::
            (pollChangeSet name ("cf-utils-" ++ name ++ "-preview") w.pollCS2).1),
          .rejected (.str "Reviewer rejected stack update")) := by
      simp only [reviewFlow, hcsF, hdelF, hpop, hpoll2, hacc]
      rfl
    refine ⟨?_, ?_, fun _ => ?_, fun h => absurd h (by simp)⟩
    · rw [hmain, hrf]
      simp [isDeleteCSEv, List.any_append]
    · rw [hmain, hrf]
      simp only [List.cons_append, List.append_assoc]
      rw [List.takeWhile_cons_of_pos (by simp [isDeleteCSEv]),
        List.takeWhile_cons_of_pos (by simp [isDeleteCSEv]),
        takeWhile_append_of_all _ _ _ hall1,
        List.takeWhile_cons_of_neg (by simp [isDeleteCSEv])]
      simp only [List.append_nil, List.all_cons, Bool.and_eq_true]
      exact ⟨by simp [isProceedEv], by simp [isProceedEv], hall2⟩
    · rw [hmain, hrf]
  | true =>
    have hrf : reviewFlow w name ct tmpl =
        ((Ev.createChangeSetCall name ("cf-utils-" ++ name ++ "-preview") none tmpl ::
            (pollChangeSet name ("cf-utils-" ++ name ++ "-preview") w.pollCS1).1) ++
          (Ev.deleteChangeSetCall name ("cf-utils-" ++ name ++ "-preview") ::
            (pollChangeSet name ("cf-utils-" ++ name ++ "-preview") w.pollCS2).1) ++
          (executeUpdateFlow w name ct tmpl).1,
          (executeUpdateFlow w name ct tmpl).2) := by
      simp only [reviewFlow, hcsF, hdelF, hpop, hpoll2, hacc]
      rfl
    refine ⟨?_, ?_, fun h => absurd h (by simp), fun _ => ?_⟩
    · rw [hmain, hrf]
      simp [isDeleteCSEv, List.any_append]
    · rw [hmain, hrf]
      simp only [List.cons_append, List.append_assoc]
      rw [List.takeWhile_cons_of_pos (by simp [isDeleteCSEv]),
        List.takeWhile_cons_of_pos (by simp [isDeleteCSEv]),
        takeWhile_append_of_all _ _ _ hall1,
        List.takeWhile_cons_of_neg (by simp [isDeleteCSEv])]
      simp only [List.append_nil, List.all_cons, Bool.and_eq_true]
      exact ⟨by simp [isProceedEv], by simp [isProceedEv], hall2⟩
    · rw [hmain, hrf]

theorem upsertStack_review_deletes_before_proceed_witness :
    (upsertStack reviewPopulatedWorld "app-stack" "template.json"
        { review := true }).2 =
      .rejected (.str "Reviewer rejected stack update") :=
  (upsertStack_review_deletes_before_proceed reviewPopulatedWorld "app-stack"
      "template.json" { review := true } (.body "Resources: {}") false
      ⟨"CREATE_COMPLETE", "", "app-stack", "cf-utils-app-stack-preview"⟩ .undef
      rfl rfl rfl rfl rfl rfl rfl rfl rfl).2.2.1 rfl
